import Mathlib

/-!
Shallow embedding of `src/REPORT_GENERATOR.py` (class `PDFReportGenerator`).

Modelling conventions:
* A Python CSV row (`csv.DictReader` dict of column name to raw string) is an
  association list `Row = List (String × String)`; `'k' in row` is `hasKey`,
  `row['k']` is `lookupKey`.
* Python `float` values are modelled as `ℚ`.  `statistics.mean` computes the
  exact fraction internally, so `mean = sum / length` over `ℚ` is faithful.
* Python exceptions are modelled by `Option`: an analysis that raises (and is
  caught, returning `False`) is `none`; a successful analysis is `some result`.
* The wall-clock timestamp `datetime.now().strftime(...)` is an injected
  parameter `now : String`.
* `pdf.cell` / `pdf.ln` calls are recorded as layout `Block`s; fonts and fill
  colors are omitted (no claim concerns them), geometry and text are kept.
-/

set_option autoImplicit false

namespace ReportGenerator

/-- One CSV record: a mapping from column name to raw text value
(`csv.DictReader` row). -/
abbrev Row := List (String × String)

/-- Python `k in row` (dict key membership). -/
def hasKey : Row → String → Bool
  | [], _ => false
  | p :: ps, k => p.1 == k || hasKey ps k

/-- Python `row[k]` (dict lookup), `none` when the key is absent. -/
def lookupKey : Row → String → Option String
  | [], _ => none
  | p :: ps, k => if p.1 == k then some p.2 else lookupKey ps k

/-- Value of a digit string read left to right. -/
def digitsToNat (cs : List Char) : Nat :=
  cs.foldl (fun acc c => acc * 10 + (c.toNat - 48)) 0

/-- Longest digit prefix of a character list, and the remainder. -/
def spanDigits : List Char → (List Char × List Char)
  | [] => ([], [])
  | c :: cs =>
      if c.isDigit then
        let (ds, rest) := spanDigits cs
        (c :: ds, rest)
      else ([], c :: cs)

/-- Unsigned part of Python `float(s)` on plain decimal literals:
`digits`, `digits.digits`, `digits.`, or `.digits`.  `none` models a raised
`ValueError`. -/
def pyFloatCore (cs : List Char) : Option ℚ :=
  let (ds, rest) := spanDigits cs
  match rest with
  | [] => if ds.isEmpty then none else some (digitsToNat ds : ℚ)
  | '.' :: rest2 =>
      let (fs, rest3) := spanDigits rest2
      if rest3.isEmpty && !(ds.isEmpty && fs.isEmpty) then
        some ((digitsToNat ds : ℚ) + (digitsToNat fs : ℚ) / (10 : ℚ) ^ fs.length)
      else none
  | _ => none

/-- Python `float(s)` on the decimal-literal fragment (optional sign, digits,
optional fractional part; exponents/`inf`/`nan`/whitespace are not modelled —
no claim uses them).  `none` models a raised `ValueError`. -/
def pyFloat (s : String) : Option ℚ :=
  match s.data with
  | '-' :: cs => (pyFloatCore cs).map (fun q => -q)
  | '+' :: cs => pyFloatCore cs
  | cs => pyFloatCore cs

/-- `statistics.mean` (exact rational arithmetic, as the Python library
computes internally). -/
def mean (xs : List ℚ) : ℚ := xs.sum / (xs.length : ℚ)

/-- Python `min` over a list; the `[]` case is never reached by the analyzer
(guarded by the emptiness test) and is given the same default `0`. -/
def listMin : List ℚ → ℚ
  | [] => 0
  | x :: xs => xs.foldl min x

/-- Python `max` over a list; same convention as `listMin`. -/
def listMax : List ℚ → ℚ
  | [] => 0
  | x :: xs => xs.foldl max x

/-- The comprehension `[float(row[key]) for row in data if key in row]` of
`analyze_data` (lines 34–35): rows missing `key` are skipped; a present value
that fails to parse raises, i.e. produces `none` for the whole list. -/
def parseColumn (key : String) : List Row → Option (List ℚ)
  | [] => some []
  | row :: rest =>
      if hasKey row key then
        match (lookupKey row key).bind pyFloat with
        | none => none
        | some q => (parseColumn key rest).map (fun qs => q :: qs)
      else parseColumn key rest

/-- The record stored in `self.analysis_results` on success
(`analyze_data`, lines 37–46). -/
structure AnalysisResult where
  count : Nat
  value1_avg : ℚ
  value1_min : ℚ
  value1_max : ℚ
  value2_avg : ℚ
  value2_min : ℚ
  value2_max : ℚ
  generated_on : String
  deriving Repr, DecidableEq

/-- `PDFReportGenerator.analyze_data` (lines 27–53) as a pure function of the
loaded rows and the injected clock: `none` is `return False` (empty data, or
an exception raised while building the value lists), `some r` is the stored
`analysis_results` together with `return True`. -/
def analyze_data (data : List Row) (now : String) : Option AnalysisResult :=
  if data.isEmpty then none
  else
    match parseColumn "value1" data, parseColumn "value2" data with
    | some values1, some values2 =>
        some {
          count := data.length
          value1_avg := if values1.isEmpty then 0 else mean values1
          value1_min := if values1.isEmpty then 0 else listMin values1
          value1_max := if values1.isEmpty then 0 else listMax values1
          value2_avg := if values2.isEmpty then 0 else mean values2
          value2_min := if values2.isEmpty then 0 else listMin values2
          value2_max := if values2.isEmpty then 0 else listMax values2
          generated_on := now }
    | _, _ => none

/-! ## Renderer model (`generate_report`, lines 55–136) -/

/-- One recorded PDF drawing operation: a `pdf.cell` call (width, height,
text, border/fill flags, whether `ln=1` was passed, alignment) or a `pdf.ln`
line break. -/
inductive Block where
  | cell (w h : ℚ) (txt : String) (border : Bool) (fill : Bool)
      (newline : Bool) (align : String)
  | lineBreak (h : ℚ)
  deriving Repr, DecidableEq

/-- `pdf.w` for the default FPDF page (A4 portrait, millimetres). -/
def pdfW : ℚ := 210

/-- `col_width = pdf.w / 4` (line 82). -/
def col_width : ℚ := pdfW / 4

/-- `max_val = max(value1_max, value2_max) or 1` (line 113): Python `or`
falls back to `1` exactly when `max(...)` is falsy, i.e. equal to `0`. -/
def max_val (r : AnalysisResult) : ℚ :=
  if max r.value1_max r.value2_max = 0 then 1 else max r.value1_max r.value2_max

/-- `scale = 100 / max_val` (line 114). -/
def scale (r : AnalysisResult) : ℚ := 100 / max_val r

/-- Width of a rendered bar: `value * scale` (lines 119 and 125). -/
def barWidth (r : AnalysisResult) (v : ℚ) : ℚ := v * scale r

/-- `f"{q:.2f}"`: fixed two-decimal rendering of a rational (rounding to the
nearest hundredth; tie-breaking and negative-zero conventions of Python float
formatting are not exercised by any claim). -/
def fmt2 (q : ℚ) : String :=
  let n : Int := round (q * 100)
  let a : Nat := n.natAbs
  let deci : Nat := a % 100
  (if n < 0 then "-" else "") ++ toString (a / 100) ++ "." ++
    (if deci < 10 then "0" else "") ++ toString deci

/-- Title block (lines 65–67). -/
def titleBlocks : List Block :=
  [ .cell 0 10 "Data Analysis Report" false false true "C",
    .lineBreak 10 ]

/-- Metadata lines (lines 70–74). -/
def metaBlocks (r : AnalysisResult) (data_file : String) : List Block :=
  [ .cell 0 6 ("Generated on: " ++ r.generated_on) false false true "L",
    .cell 0 6 ("Data source: " ++ data_file) false false true "L",
    .cell 0 6 ("Records analyzed: " ++ toString r.count) false false true "L",
    .lineBreak 10 ]

/-- Statistics table with its section header (lines 77–106). -/
def tableBlocks (r : AnalysisResult) : List Block :=
  [ .cell 0 8 "Summary Statistics" false false true "L",
    .cell col_width 8 "Metric" true true false "L",
    .cell col_width 8 "Value 1" true true false "L",
    .cell col_width 8 "Value 2" true true false "L",
    .lineBreak 8,
    .cell col_width 8 "Average" true false false "L",
    .cell col_width 8 (fmt2 r.value1_avg) true false false "L",
    .cell col_width 8 (fmt2 r.value2_avg) true false false "L",
    .lineBreak 8,
    .cell col_width 8 "Minimum" true false false "L",
    .cell col_width 8 (fmt2 r.value1_min) true false false "L",
    .cell col_width 8 (fmt2 r.value2_min) true false false "L",
    .lineBreak 8,
    .cell col_width 8 "Maximum" true false false "L",
    .cell col_width 8 (fmt2 r.value1_max) true false false "L",
    .cell col_width 8 (fmt2 r.value2_max) true false false "L",
    .lineBreak 15 ]

/-- Bar-chart section with its header (lines 109–126). -/
def barBlocks (r : AnalysisResult) : List Block :=
  [ .cell 0 8 "Data Visualization" false false true "L",
    .cell 40 8 "Value 1 Avg:" false false false "L",
    .cell (barWidth r r.value1_avg) 8 (" " ++ fmt2 r.value1_avg) false true true "L",
    .cell 40 8 "Value 2 Avg:" false false false "L",
    .cell (barWidth r r.value2_avg) 8 (" " ++ fmt2 r.value2_avg) false true true "L",
    .lineBreak 20 ]

/-- Footer (lines 129–131). -/
def footerBlocks : List Block :=
  [ .cell 0 6 "End of Report - Generated by Data Analysis Tool" false false false "C" ]

/-- The full document layout produced by a successful `generate_report`. -/
def report_blocks (r : AnalysisResult) (data_file : String) : List Block :=
  titleBlocks ++ metaBlocks r data_file ++ tableBlocks r ++ barBlocks r ++ footerBlocks

/-- `PDFReportGenerator.generate_report` (lines 55–136) as a function of the
state fields it reads: the guard on line 57 rejects an empty
`analysis_results` (`return False`, modelled `none`); otherwise the document
is built and written. -/
def generate_report (analysis_results : Option AnalysisResult)
    (data_file : String) : Option (List Block) :=
  match analysis_results with
  | none => none
  | some r => some (report_blocks r data_file)

/-- The `self.analysis_results` field update performed by `analyze_data`: the
field (initially `{}` from `__init__`, modelled `none`) is assigned only on
the success path (line 37); on every failure path the method returns `False`
before any assignment, leaving the stored value unchanged. -/
def analyze_data_step (stored : Option AnalysisResult) (data : List Row)
    (now : String) : Bool × Option AnalysisResult :=
  match analyze_data data now with
  | some r => (true, some r)
  | none => (false, stored)

/-- The seven numeric statistics of a result (everything except the
timestamp). -/
def statsOf (r : AnalysisResult) : Nat × ℚ × ℚ × ℚ × ℚ × ℚ × ℚ :=
  (r.count, r.value1_avg, r.value1_min, r.value1_max,
   r.value2_avg, r.value2_min, r.value2_max)

/-- Widths of the filled (`fill=True`) cells of a block list, in order. -/
def filledCellWidths (bs : List Block) : List ℚ :=
  bs.filterMap fun b =>
    match b with
    | .cell w _ _ _ fill _ _ => if fill then some w else none
    | .lineBreak _ => none

/-- Statistics record produced for the single row `{value1: "0.5", value2: "0.5"}`. -/
def halfResult : AnalysisResult :=
  { count := 1, value1_avg := 1/2, value1_min := 1/2, value1_max := 1/2,
    value2_avg := 1/2, value2_min := 1/2, value2_max := 1/2, generated_on := "t" }

/-- Statistics record produced for the rows
`{value1: "-2", value2: "0"}, {value1: "0", value2: "0"}`: both maxima are `0`
while the first average is negative. -/
def negResult : AnalysisResult :=
  { count := 2, value1_avg := -1, value1_min := -2, value1_max := 0,
    value2_avg := 0, value2_min := 0, value2_max := 0, generated_on := "t" }

/-- The all-zero statistics record (both columns empty). -/
def zeroResult : AnalysisResult :=
  { count := 1, value1_avg := 0, value1_min := 0, value1_max := 0,
    value2_avg := 0, value2_min := 0, value2_max := 0, generated_on := "t" }

/-- Statistics for the row `{value1:"1", value2:"10"}` stamped at time "a". -/
def oneRowResultA : AnalysisResult :=
  { count := 1, value1_avg := 1, value1_min := 1, value1_max := 1,
    value2_avg := 10, value2_min := 10, value2_max := 10, generated_on := "a" }

/-- Statistics for the row `{value1:"1", value2:"10"}` stamped at time "b". -/
def oneRowResultB : AnalysisResult :=
  { count := 1, value1_avg := 1, value1_min := 1, value1_max := 1,
    value2_avg := 10, value2_min := 10, value2_max := 10, generated_on := "b" }

/-! ## General lemmas about the analyzer's statistics -/

theorem foldl_min_le_init (xs : List ℚ) (a : ℚ) : xs.foldl min a ≤ a := by
  induction xs generalizing a with
  | nil => simp
  | cons x xs ih =>
      calc (x :: xs).foldl min a = xs.foldl min (min a x) := rfl
        _ ≤ min a x := ih (min a x)
        _ ≤ a := min_le_left a x

theorem foldl_min_le_mem (xs : List ℚ) (a x : ℚ) (hx : x ∈ xs) :
    xs.foldl min a ≤ x := by
  induction xs generalizing a with
  | nil => cases hx
  | cons y ys ih =>
      rcases List.mem_cons.mp hx with h | h
      · subst h
        calc (x :: ys).foldl min a = ys.foldl min (min a x) := rfl
          _ ≤ min a x := foldl_min_le_init ys (min a x)
          _ ≤ x := min_le_right a x
      · exact ih (min a y) h

theorem init_le_foldl_max (xs : List ℚ) (a : ℚ) : a ≤ xs.foldl max a := by
  induction xs generalizing a with
  | nil => simp
  | cons x xs ih =>
      calc a ≤ max a x := le_max_left a x
        _ ≤ xs.foldl max (max a x) := ih (max a x)
        _ = (x :: xs).foldl max a := rfl

theorem mem_le_foldl_max (xs : List ℚ) (a x : ℚ) (hx : x ∈ xs) :
    x ≤ xs.foldl max a := by
  induction xs generalizing a with
  | nil => cases hx
  | cons y ys ih =>
      rcases List.mem_cons.mp hx with h | h
      · subst h
        calc x ≤ max a x := le_max_right a x
          _ ≤ ys.foldl max (max a x) := init_le_foldl_max ys (max a x)
          _ = (x :: ys).foldl max a := rfl
      · exact ih (max a y) h

theorem listMin_le_mem (xs : List ℚ) (x : ℚ) (hx : x ∈ xs) : listMin xs ≤ x := by
  cases xs with
  | nil => cases hx
  | cons y ys =>
      rcases List.mem_cons.mp hx with h | h
      · subst h; exact foldl_min_le_init ys x
      · exact foldl_min_le_mem ys y x h

theorem mem_le_listMax (xs : List ℚ) (x : ℚ) (hx : x ∈ xs) : x ≤ listMax xs := by
  cases xs with
  | nil => cases hx
  | cons y ys =>
      rcases List.mem_cons.mp hx with h | h
      · subst h; exact init_le_foldl_max ys x
      · exact mem_le_foldl_max ys y x h

theorem mul_length_le_sum (xs : List ℚ) (a : ℚ) (h : ∀ x ∈ xs, a ≤ x) :
    a * xs.length ≤ xs.sum := by
  induction xs with
  | nil => simp
  | cons x xs ih =>
      have hx : a ≤ x := h x (List.mem_cons_self x xs)
      have hrest : a * xs.length ≤ xs.sum :=
        ih (fun y hy => h y (List.mem_cons_of_mem x hy))
      have : a * (x :: xs).length = a + a * xs.length := by
        push_cast [List.length_cons]; ring
      rw [this, List.sum_cons]
      exact add_le_add hx hrest

theorem sum_le_mul_length (xs : List ℚ) (a : ℚ) (h : ∀ x ∈ xs, x ≤ a) :
    xs.sum ≤ a * xs.length := by
  induction xs with
  | nil => simp
  | cons x xs ih =>
      have hx : x ≤ a := h x (List.mem_cons_self x xs)
      have hrest : xs.sum ≤ a * xs.length :=
        ih (fun y hy => h y (List.mem_cons_of_mem x hy))
      have : a * (x :: xs).length = a + a * xs.length := by
        push_cast [List.length_cons]; ring
      rw [this, List.sum_cons]
      exact add_le_add hx hrest

theorem listMin_le_mean (xs : List ℚ) (h : xs ≠ []) : listMin xs ≤ mean xs := by
  have hlen : 0 < (xs.length : ℚ) := by
    have := List.length_pos.mpr h
    exact_mod_cast this
  rw [mean, le_div_iff₀ hlen]
  exact mul_length_le_sum xs (listMin xs) (fun x hx => listMin_le_mem xs x hx)

theorem mean_le_listMax (xs : List ℚ) (h : xs ≠ []) : mean xs ≤ listMax xs := by
  have hlen : 0 < (xs.length : ℚ) := by
    have := List.length_pos.mpr h
    exact_mod_cast this
  rw [mean, div_le_iff₀ hlen]
  exact sum_le_mul_length xs (listMax xs) (fun x hx => mem_le_listMax xs x hx)

/-- The statistics triple produced for one column, with the emptiness guard of
lines 39–44, always satisfies `min ≤ avg ≤ max`. -/
theorem column_chain (vs : List ℚ) :
    (if vs.isEmpty then (0 : ℚ) else listMin vs) ≤
      (if vs.isEmpty then (0 : ℚ) else mean vs) ∧
    (if vs.isEmpty then (0 : ℚ) else mean vs) ≤
      (if vs.isEmpty then (0 : ℚ) else listMax vs) := by
  cases vs with
  | nil => simp
  | cons x xs =>
      have hne : x :: xs ≠ [] := by simp
      simp only [List.isEmpty_cons, if_neg Bool.false_ne_true]
      constructor
      · simpa using listMin_le_mean (x :: xs) hne
      · simpa using mean_le_listMax (x :: xs) hne

/-- Inversion for a successful analysis: the stored record is exactly the one
built on lines 37–46 from the two parsed value lists. -/
theorem analyze_data_some_inv (data : List Row) (now : String)
    (r : AnalysisResult) (h : analyze_data data now = some r) :
    data ≠ [] ∧ ∃ values1 values2,
      parseColumn "value1" data = some values1 ∧
      parseColumn "value2" data = some values2 ∧
      r = { count := data.length
            value1_avg := if values1.isEmpty then 0 else mean values1
            value1_min := if values1.isEmpty then 0 else listMin values1
            value1_max := if values1.isEmpty then 0 else listMax values1
            value2_avg := if values2.isEmpty then 0 else mean values2
            value2_min := if values2.isEmpty then 0 else listMin values2
            value2_max := if values2.isEmpty then 0 else listMax values2
            generated_on := now } := by
  by_cases hemp : data.isEmpty
  · rw [analyze_data, if_pos hemp] at h
    cases h
  · rw [analyze_data, if_neg hemp] at h
    refine ⟨by simpa [List.isEmpty_iff] using hemp, ?_⟩
    cases h1 : parseColumn "value1" data with
    | none => rw [h1] at h; cases h
    | some values1 =>
        cases h2 : parseColumn "value2" data with
        | none => rw [h1, h2] at h; cases h
        | some values2 =>
            rw [h1, h2] at h
            exact ⟨values1, values2, rfl, rfl, (Option.some.injEq _ _ ▸ h.symm)⟩

/-- When every row has the key with a parsable value, the column comprehension
succeeds and collects one value per row. -/
theorem parseColumn_all_present (key : String) (data : List Row)
    (h : ∀ row ∈ data, hasKey row key = true ∧
      ((lookupKey row key).bind pyFloat).isSome = true) :
    ∃ vs, parseColumn key data = some vs ∧ vs.length = data.length := by
  induction data with
  | nil => exact ⟨[], rfl, rfl⟩
  | cons row rest ih =>
      obtain ⟨hk, hsome⟩ := h row (List.mem_cons_self row rest)
      obtain ⟨q, hq⟩ := Option.isSome_iff_exists.mp hsome
      obtain ⟨vs, hvs, hlen⟩ := ih (fun r hr => h r (List.mem_cons_of_mem row hr))
      refine ⟨q :: vs, ?_, by simp [hlen]⟩
      rw [parseColumn, if_pos hk, hq, hvs]
      rfl

/-- A present-but-unparsable value anywhere in the column makes the whole
comprehension raise (lines 34–35 propagate the `ValueError`). -/
theorem parseColumn_bad_value (key : String) (data : List Row)
    (h : ∃ row ∈ data, hasKey row key = true ∧
      (lookupKey row key).bind pyFloat = none) :
    parseColumn key data = none := by
  induction data with
  | nil => simp at h
  | cons row rest ih =>
      obtain ⟨row', hmem, hk, hbad⟩ := h
      rcases List.mem_cons.mp hmem with h0 | h0
      · subst h0
        rw [parseColumn, if_pos hk, hbad]
      · have hrest : parseColumn key rest = none := ih ⟨row', h0, hk, hbad⟩
        by_cases hk0 : hasKey row key
        · rw [parseColumn, if_pos hk0]
          cases hres : (lookupKey row key).bind pyFloat with
          | none => rfl
          | some q => rw [hrest]; rfl
        · rw [parseColumn, if_neg hk0, hrest]

/-! ## Claims -/

/-- C6: for the empty Row sequence, `analyze_data` takes the guard on
lines 29–30 and fails (returns `False`), producing no `AnalysisResult`. -/
theorem C6_empty_rows_fail (now : String) : analyze_data [] now = none := rfl

/-- C8: on the concrete rows `[{value1:"1", value2:"10"},
{value1:"3", value2:"20"}]` the analyzer returns exactly the statistics
`value1_avg=2, value1_min=1, value1_max=3, value2_avg=15, value2_min=10,
value2_max=20, count=2`. -/
theorem C8_concrete_statistics :
    analyze_data [[("value1", "1"), ("value2", "10")],
                  [("value1", "3"), ("value2", "20")]] "t" =
      some { count := 2, value1_avg := 2, value1_min := 1, value1_max := 3,
             value2_avg := 15, value2_min := 10, value2_max := 20,
             generated_on := "t" } := by
  have h1 : parseColumn "value1"
      [[("value1", "1"), ("value2", "10")], [("value1", "3"), ("value2", "20")]] =
      some [1, 3] := by decide
  have h2 : parseColumn "value2"
      [[("value1", "1"), ("value2", "10")], [("value1", "3"), ("value2", "20")]] =
      some [10, 20] := by decide
  rw [analyze_data, h1, h2]
  norm_num [mean, listMin, listMax]

/-- C1 (code bug): on a non-empty Row sequence in which no row has the key
`value1`, the claim (and the dead `except KeyError` handler on lines 48–50)
expects a failure, but `analyze_data` succeeds: the guard `if 'value1' in row`
in the comprehension makes the `KeyError` unreachable, so the missing column
silently yields `avg = min = max = 0` and a successful result. -/
theorem C1_missing_column_succeeds :
    analyze_data [[("value2", "5")]] "t" =
      some { count := 1, value1_avg := 0, value1_min := 0, value1_max := 0,
             value2_avg := 5, value2_min := 5, value2_max := 5,
             generated_on := "t" } := by
  have h1 : parseColumn "value1" [[("value2", "5")]] = some [] := by decide
  have h2 : parseColumn "value2" [[("value2", "5")]] = some [5] := by decide
  rw [analyze_data, h1, h2]
  norm_num [mean, listMin, listMax]

/-- C3: for every non-empty Row sequence in which every row carries a numeric
`value1` and a numeric `value2`, the analyzer succeeds, `count` is the number
of rows, and `min ≤ avg ≤ max` holds for both columns. -/
theorem C3_all_numeric_success (data : List Row) (now : String)
    (hne : data ≠ [])
    (h1 : ∀ row ∈ data, hasKey row "value1" = true ∧
      ((lookupKey row "value1").bind pyFloat).isSome = true)
    (h2 : ∀ row ∈ data, hasKey row "value2" = true ∧
      ((lookupKey row "value2").bind pyFloat).isSome = true) :
    ∃ r, analyze_data data now = some r ∧ r.count = data.length ∧
      r.value1_min ≤ r.value1_avg ∧ r.value1_avg ≤ r.value1_max ∧
      r.value2_min ≤ r.value2_avg ∧ r.value2_avg ≤ r.value2_max := by
  obtain ⟨vs1, hvs1, hlen1⟩ := parseColumn_all_present "value1" data h1
  obtain ⟨vs2, hvs2, hlen2⟩ := parseColumn_all_present "value2" data h2
  have hemp : data.isEmpty = false := by
    cases data with
    | nil => exact absurd rfl hne
    | cons a l => rfl
  refine ⟨{ count := data.length
            value1_avg := if vs1.isEmpty then 0 else mean vs1
            value1_min := if vs1.isEmpty then 0 else listMin vs1
            value1_max := if vs1.isEmpty then 0 else listMax vs1
            value2_avg := if vs2.isEmpty then 0 else mean vs2
            value2_min := if vs2.isEmpty then 0 else listMin vs2
            value2_max := if vs2.isEmpty then 0 else listMax vs2
            generated_on := now }, ?_, rfl,
    (column_chain vs1).1, (column_chain vs1).2,
    (column_chain vs2).1, (column_chain vs2).2⟩
  rw [analyze_data, hemp, hvs1, hvs2]
  rfl

/-- Witness for C3 at the concrete two-row input of the spec's example. -/
theorem C3_all_numeric_success_witness :
    ∃ r, analyze_data [[("value1", "1"), ("value2", "10")],
                       [("value1", "3"), ("value2", "20")]] "t" = some r ∧
      r.count = 2 ∧
      r.value1_min ≤ r.value1_avg ∧ r.value1_avg ≤ r.value1_max ∧
      r.value2_min ≤ r.value2_avg ∧ r.value2_avg ≤ r.value2_max :=
  C3_all_numeric_success
    [[("value1", "1"), ("value2", "10")], [("value1", "3"), ("value2", "20")]]
    "t" (by decide) (by decide) (by decide)

/-- C4: whenever the analyzer returns a result, each column satisfies
`min ≤ avg ≤ max` (this holds unconditionally, hence in particular whenever at
least one value was collected), and a column whose comprehension collected no
values has `avg = min = max = 0`. -/
theorem C4_result_invariant (data : List Row) (now : String)
    (r : AnalysisResult) (h : analyze_data data now = some r) :
    (r.value1_min ≤ r.value1_avg ∧ r.value1_avg ≤ r.value1_max) ∧
    (r.value2_min ≤ r.value2_avg ∧ r.value2_avg ≤ r.value2_max) ∧
    (parseColumn "value1" data = some [] →
      r.value1_avg = 0 ∧ r.value1_min = 0 ∧ r.value1_max = 0) ∧
    (parseColumn "value2" data = some [] →
      r.value2_avg = 0 ∧ r.value2_min = 0 ∧ r.value2_max = 0) := by
  obtain ⟨-, vs1, vs2, hvs1, hvs2, hr⟩ := analyze_data_some_inv data now r h
  subst hr
  refine ⟨column_chain vs1, column_chain vs2, ?_, ?_⟩
  · intro hz
    rw [hvs1] at hz
    obtain rfl : vs1 = [] := by injection hz
    simp
  · intro hz
    rw [hvs2] at hz
    obtain rfl : vs2 = [] := by injection hz
    simp

/-- Witness for C4 at a concrete input whose `value1` column is empty. -/
theorem C4_result_invariant_witness :
    ((0:ℚ) ≤ 0 ∧ (0:ℚ) ≤ 0) ∧ ((5:ℚ) ≤ 5 ∧ (5:ℚ) ≤ 5) ∧
    ((0:ℚ) = 0 ∧ (0:ℚ) = 0 ∧ (0:ℚ) = 0) := by
  have h := C4_result_invariant [[("value2", "5")]] "t"
    { count := 1, value1_avg := 0, value1_min := 0, value1_max := 0,
      value2_avg := 5, value2_min := 5, value2_max := 5, generated_on := "t" }
    (by
      have h1 : parseColumn "value1" [[("value2", "5")]] = some [] := by decide
      have h2 : parseColumn "value2" [[("value2", "5")]] = some [5] := by decide
      rw [analyze_data, h1, h2]
      norm_num [mean, listMin, listMax])
  exact ⟨h.1, h.2.1, h.2.2.1 (by decide)⟩

/-- C5: a Row sequence containing some row whose `value1` is present but not
parsable makes `analyze_data` fail (the `float` call raises and the exception
handler returns `False`), regardless of the other rows. -/
theorem C5_bad_value_fatal (data : List Row) (now : String)
    (h : ∃ row ∈ data, hasKey row "value1" = true ∧
      (lookupKey row "value1").bind pyFloat = none) :
    analyze_data data now = none := by
  have hnone : parseColumn "value1" data = none := parseColumn_bad_value _ _ h
  obtain ⟨row, hmem, -, -⟩ := h
  have hemp : data.isEmpty = false := by
    cases data with
    | nil => cases hmem
    | cons a l => rfl
  rw [analyze_data, hemp, hnone]
  rfl

/-- Witness for C5: one malformed `value1` among otherwise valid rows. -/
theorem C5_bad_value_fatal_witness :
    analyze_data [[("value1", "abc"), ("value2", "5")],
                  [("value1", "1"), ("value2", "2")]] "t" = none :=
  C5_bad_value_fatal
    [[("value1", "abc"), ("value2", "5")], [("value1", "1"), ("value2", "2")]]
    "t" (by decide)

/-- Unfolding step for the column comprehension on a row whose value parses. -/
theorem parseColumn_cons_some (key : String) (row : Row) (rest : List Row)
    (s : String) (q : ℚ) (hk : hasKey row key = true)
    (hl : lookupKey row key = some s) (hp : pyFloat s = some q) :
    parseColumn key (row :: rest) =
      (parseColumn key rest).map (fun qs => q :: qs) := by
  rw [parseColumn, if_pos hk, hl]
  simp only [Option.some_bind, hp]

/-- Evaluation of the float parser on the literal "0.5". -/
theorem pyFloat_half : pyFloat "0.5" = some (1/2) := by
  have h : pyFloat "0.5" =
      some ((digitsToNat ['0'] : ℚ) +
        (digitsToNat ['5'] : ℚ) / (10 : ℚ) ^ (['5'] : List Char).length) := rfl
  have e0 : digitsToNat ['0'] = 0 := rfl
  have e5 : digitsToNat ['5'] = 5 := rfl
  rw [h, e0, e5]
  norm_num

/-- C2 fails as stated: for the single row `{value1:"0.5", value2:"0.5"}` the
code renders the `value1_avg` bar with width `0.5 * (100 / 0.5) = 100`, while
the claimed formula `(value / max(value1_max, value2_max, 1)) * 100` gives
`50` — the code's `or 1` is not a floor at `1`; it replaces the maximum only
when the maximum is exactly `0`. -/
theorem C2_claim_counterexample :
    analyze_data [[("value1", "0.5"), ("value2", "0.5")]] "t" = some halfResult ∧
    barWidth halfResult halfResult.value1_avg = 100 ∧
    halfResult.value1_avg /
      max (max halfResult.value1_max halfResult.value2_max) 1 * 100 = 50 := by
  have hk1 : hasKey [("value1", "0.5"), ("value2", "0.5")] "value1" = true := by decide
  have hl1 : lookupKey [("value1", "0.5"), ("value2", "0.5")] "value1" = some "0.5" := by decide
  have hk2 : hasKey [("value1", "0.5"), ("value2", "0.5")] "value2" = true := by decide
  have hl2 : lookupKey [("value1", "0.5"), ("value2", "0.5")] "value2" = some "0.5" := by decide
  have h1 : parseColumn "value1" [[("value1", "0.5"), ("value2", "0.5")]] = some [1/2] := by
    rw [parseColumn_cons_some "value1" _ [] "0.5" (1/2) hk1 hl1 pyFloat_half]
    rfl
  have h2 : parseColumn "value2" [[("value1", "0.5"), ("value2", "0.5")]] = some [1/2] := by
    rw [parseColumn_cons_some "value2" _ [] "0.5" (1/2) hk2 hl2 pyFloat_half]
    rfl
  refine ⟨?_, ?_, ?_⟩
  · rw [analyze_data, h1, h2]
    norm_num [mean, listMin, listMax, halfResult]
  · norm_num [barWidth, scale, max_val, halfResult]
  · norm_num [halfResult, max_def]

/-- C2 amended: the filled rectangles of the visualization section have widths
`(value / d) * 100` where `d = max(value1_max, value2_max)` when that maximum
is nonzero and `d = 1` only when the maximum is exactly `0` (the Python
`or 1` fallback), for each of the two averages. -/
theorem C2_amended_bar_widths (r : AnalysisResult) :
    filledCellWidths (barBlocks r) =
      [r.value1_avg / (if max r.value1_max r.value2_max = 0 then 1
          else max r.value1_max r.value2_max) * 100,
       r.value2_avg / (if max r.value1_max r.value2_max = 0 then 1
          else max r.value1_max r.value2_max) * 100] := by
  have hb : filledCellWidths (barBlocks r) =
      [barWidth r r.value1_avg, barWidth r r.value2_avg] := by
    simp [filledCellWidths, barBlocks]
  rw [hb]
  simp only [barWidth, scale, max_val, List.cons.injEq, and_true]
  exact ⟨by ring, by ring⟩

/-- C7 fails as stated: the reachable result of rows
`{value1:"-2", value2:"0"}, {value1:"0", value2:"0"}` has both maxima `0`, yet
the `value1_avg` bar is rendered with width `-1 * (100 / 1) = -100`, not `0`;
only the division-safety half of the claim holds. -/
theorem C7_claim_counterexample :
    analyze_data [[("value1", "-2"), ("value2", "0")],
                  [("value1", "0"), ("value2", "0")]] "t" = some negResult ∧
    negResult.value1_max = 0 ∧ negResult.value2_max = 0 ∧
    barWidth negResult negResult.value1_avg = -100 ∧
    barWidth negResult negResult.value1_avg ≠ 0 := by
  have h1 : parseColumn "value1"
      [[("value1", "-2"), ("value2", "0")], [("value1", "0"), ("value2", "0")]] =
      some [-2, 0] := by decide
  have h2 : parseColumn "value2"
      [[("value1", "-2"), ("value2", "0")], [("value1", "0"), ("value2", "0")]] =
      some [0, 0] := by decide
  refine ⟨?_, rfl, rfl, ?_, ?_⟩
  · rw [analyze_data, h1, h2]
    norm_num [mean, listMin, listMax, negResult, min_def, max_def]
  · norm_num [barWidth, scale, max_val, negResult]
  · norm_num [barWidth, scale, max_val, negResult]

/-- C7 amended: rendering a result with both maxima `0` involves no division
by zero (the fallback divisor is `1`, so the scale is `100`), each bar's width
is `avg * 100`, and both bars have width `0` whenever the corresponding
averages are `0` (in particular when the columns yielded no values). -/
theorem C7_amended_zero_max_safe (r : AnalysisResult)
    (h1 : r.value1_max = 0) (h2 : r.value2_max = 0) :
    max_val r ≠ 0 ∧
    barWidth r r.value1_avg = r.value1_avg * 100 ∧
    barWidth r r.value2_avg = r.value2_avg * 100 ∧
    (r.value1_avg = 0 → barWidth r r.value1_avg = 0) ∧
    (r.value2_avg = 0 → barWidth r r.value2_avg = 0) := by
  have hmv : max_val r = 1 := by
    rw [max_val, h1, h2]
    norm_num
  refine ⟨by rw [hmv]; norm_num, ?_, ?_, ?_, ?_⟩
  · rw [barWidth, scale, hmv]; norm_num
  · rw [barWidth, scale, hmv]; norm_num
  · intro hz; rw [barWidth, hz]; ring
  · intro hz; rw [barWidth, hz]; ring

/-- Witness for C7 (amended) at the all-zero statistics record. -/
theorem C7_amended_zero_max_safe_witness :
    max_val zeroResult ≠ 0 ∧
    barWidth zeroResult zeroResult.value1_avg = 0 ∧
    barWidth zeroResult zeroResult.value2_avg = 0 :=
  ⟨(C7_amended_zero_max_safe zeroResult rfl rfl).1,
   (C7_amended_zero_max_safe zeroResult rfl rfl).2.2.2.1 rfl,
   (C7_amended_zero_max_safe zeroResult rfl rfl).2.2.2.2 rfl⟩

/-- C9: the analysis statistics, the statistics table, and the bar layout are
functions of the input rows alone — two runs with different wall-clock
timestamps agree on everything but the timestamp. -/
theorem C9_pipeline_deterministic (data : List Row) (t1 t2 : String)
    (r1 r2 : AnalysisResult)
    (h1 : analyze_data data t1 = some r1) (h2 : analyze_data data t2 = some r2) :
    statsOf r1 = statsOf r2 ∧ tableBlocks r1 = tableBlocks r2 ∧
      barBlocks r1 = barBlocks r2 := by
  obtain ⟨-, v1, v2, p1, p2, hr1⟩ := analyze_data_some_inv data t1 r1 h1
  obtain ⟨-, w1, w2, q1, q2, hr2⟩ := analyze_data_some_inv data t2 r2 h2
  rw [p1] at q1
  rw [p2] at q2
  obtain rfl : v1 = w1 := by injection q1
  obtain rfl : v2 = w2 := by injection q2
  subst hr1
  subst hr2
  exact ⟨rfl, rfl, rfl⟩

/-- Witness for C9: the same one-row input analyzed at times "a" and "b". -/
theorem C9_pipeline_deterministic_witness :
    statsOf oneRowResultA = statsOf oneRowResultB ∧
    tableBlocks oneRowResultA = tableBlocks oneRowResultB ∧
    barBlocks oneRowResultA = barBlocks oneRowResultB :=
  C9_pipeline_deterministic [[("value1", "1"), ("value2", "10")]] "a" "b"
    oneRowResultA oneRowResultB
    (by
      have h1 : parseColumn "value1" [[("value1", "1"), ("value2", "10")]] =
          some [1] := by decide
      have h2 : parseColumn "value2" [[("value1", "1"), ("value2", "10")]] =
          some [10] := by decide
      rw [analyze_data, h1, h2]
      norm_num [mean, listMin, listMax, oneRowResultA])
    (by
      have h1 : parseColumn "value1" [[("value1", "1"), ("value2", "10")]] =
          some [1] := by decide
      have h2 : parseColumn "value2" [[("value1", "1"), ("value2", "10")]] =
          some [10] := by decide
      rw [analyze_data, h1, h2]
      norm_num [mean, listMin, listMax, oneRowResultB])

/-- C10: starting from the freshly initialized state (`analysis_results`
empty), a failed analysis leaves the stored results empty, and the renderer's
guard (line 57) rejects the post-analysis state exactly when the analysis
failed. -/
theorem C10_failed_analysis_state (data : List Row) (now file : String) :
    ((analyze_data_step none data now).1 = false →
      (analyze_data_step none data now).2 = none) ∧
    ((generate_report (analyze_data_step none data now).2 file).isNone = true ↔
      (analyze_data_step none data now).1 = false) := by
  cases h : analyze_data data now with
  | none => simp [analyze_data_step, generate_report, h]
  | some r => simp [analyze_data_step, generate_report, h]

/-- Witness for C10 at the empty-row input (a failing analysis). -/
theorem C10_failed_analysis_state_witness :
    (analyze_data_step none [] "t").2 = none ∧
    (generate_report (analyze_data_step none [] "t").2 "f").isNone = true :=
  ⟨(C10_failed_analysis_state [] "t" "f").1 rfl,
   ((C10_failed_analysis_state [] "t" "f").2).mpr rfl⟩

end ReportGenerator
